import Mathlib

/-!
Shallow embedding of the TaskFlow task-management core.

The authoritative source is src/app/models/task.py (the SQLAlchemy Task
model with its soft_delete, restore and is_overdue operations). The Query
and Command services (get_task, list_tasks, create_task, update_task,
delete_task) are part of this repository but their code is not under src/,
so they are modelled from the spec (sections 4.2, 4.3, 7 and 9); each such
definition carries a doc comment saying so.

Timestamps are modelled as integers (an abstract monotone clock); the
current time is passed explicitly where the Python code calls
datetime.utcnow(). Fields that SQLAlchemy leaves unset on a freshly
constructed (not yet inserted) object are modelled as Option values that
are none until the column defaults are applied at INSERT time.
-/

namespace TaskFlow

/-- Task status enumeration (task.py, class TaskStatus). -/
inductive TaskStatus where
  | pending
  | in_progress
  | completed
  | cancelled
deriving DecidableEq, Repr

/-- Task priority enumeration (task.py, class TaskPriority). -/
inductive TaskPriority where
  | low
  | medium
  | high
  | urgent
deriving DecidableEq, Repr

/-- Decode the string value of a TaskStatus member, as the enum-as-string
storage boundary does; unknown strings are rejected (none). -/
def TaskStatus.ofString (s : String) : Option TaskStatus :=
  if s = "pending" then some TaskStatus.pending
  else if s = "in_progress" then some TaskStatus.in_progress
  else if s = "completed" then some TaskStatus.completed
  else if s = "cancelled" then some TaskStatus.cancelled
  else none

/-- Decode the string value of a TaskPriority member; unknown strings are
rejected (none). -/
def TaskPriority.ofString (s : String) : Option TaskPriority :=
  if s = "low" then some TaskPriority.low
  else if s = "medium" then some TaskPriority.medium
  else if s = "high" then some TaskPriority.high
  else if s = "urgent" then some TaskPriority.urgent
  else none

/-- The Task entity (task.py, class Task). Columns that are nullable, or
whose defaults SQLAlchemy applies only at INSERT (status, priority,
is_deleted, created_at) or at UPDATE (updated_at), are Option-valued:
none models SQL NULL / an unset in-memory attribute. -/
structure Task where
  id : Option Int
  title : String
  description : Option String
  status : Option TaskStatus
  priority : Option TaskPriority
  due_date : Option Int
  owner_id : Int
  created_at : Option Int
  updated_at : Option Int
  is_deleted : Option Bool
  deleted_at : Option Int
deriving DecidableEq, Repr

/-- In-memory construction Task(title=..., description=..., status=...,
priority=..., due_date=..., owner_id=...). SQLAlchemy column defaults
(status PENDING, priority MEDIUM, is_deleted False, created_at now) are
NOT applied here: they fire only when the row is inserted, so every
keyword argument not passed stays none on the fresh object. -/
def Task.construct (title : String) (description : Option String)
    (status : Option TaskStatus) (priority : Option TaskPriority)
    (due_date : Option Int) (owner_id : Int) : Task :=
  { id := none, title := title, description := description, status := status,
    priority := priority, due_date := due_date, owner_id := owner_id,
    created_at := none, updated_at := none, is_deleted := none,
    deleted_at := none }

/-- The INSERT of a task row: the store assigns the primary key and the
column defaults fire for every column left unset (task.py lines 55-80:
status default PENDING, priority default MEDIUM, is_deleted default False,
created_at server_default now()). updated_at has no insert default. -/
def Task.insertDefaults (t : Task) (now : Int) (newId : Int) : Task :=
  { t with
    id := match t.id with | none => some newId | some i => some i,
    status := match t.status with
      | none => some TaskStatus.pending
      | some s => some s,
    priority := match t.priority with
      | none => some TaskPriority.medium
      | some p => some p,
    is_deleted := match t.is_deleted with
      | none => some false
      | some b => some b,
    created_at := match t.created_at with
      | none => some now
      | some c => some c }

/-- Task.soft_delete (task.py lines 85-88): sets is_deleted = True and
deleted_at = datetime.utcnow(). -/
def Task.soft_delete (t : Task) (now : Int) : Task :=
  { t with is_deleted := some true, deleted_at := some now }

/-- Task.restore (task.py lines 90-93): sets is_deleted = False and
deleted_at = None. -/
def Task.restore (t : Task) : Task :=
  { t with is_deleted := some false, deleted_at := none }

/-- Task.is_overdue (task.py lines 95-100): if due_date is set (a datetime
is always truthy) and status is not COMPLETED, return utcnow() > due_date,
else False. -/
def Task.is_overdue (t : Task) (now : Int) : Bool :=
  match t.due_date with
  | some d =>
      if t.status ≠ some TaskStatus.completed then decide (d < now) else false
  | none => false

/-- Modelled from the spec: the error kinds produced by the core (spec
section 7); the service code producing them is not under src/. -/
inductive Err where
  | NotFound
  | ValidationError
  | InvalidArgument
deriving DecidableEq, Repr

/-- Modelled from the spec: a create/update request payload. Enum fields
arrive as raw strings and are validated at the boundary (spec sections 4.3
and 9); absent fields are none (partial-update semantics). -/
structure Payload where
  title : Option String
  description : Option String
  status : Option String
  priority : Option String
  due_date : Option Int
  owner_id : Option Int
  id : Option Int
  created_at : Option Int
deriving DecidableEq, Repr

/-- Modelled from the spec: decode the status field of a create payload,
defaulting to PENDING when absent and rejecting unrecognized values with
ValidationError (spec section 4.3). -/
def decodeStatusField (s : Option String) : Except Err TaskStatus :=
  match s with
  | none => Except.ok TaskStatus.pending
  | some str =>
      match TaskStatus.ofString str with
      | some v => Except.ok v
      | none => Except.error Err.ValidationError

/-- Modelled from the spec: decode the priority field of a create payload,
defaulting to MEDIUM when absent (spec section 4.3). -/
def decodePriorityField (s : Option String) : Except Err TaskPriority :=
  match s with
  | none => Except.ok TaskPriority.medium
  | some str =>
      match TaskPriority.ofString str with
      | some v => Except.ok v
      | none => Except.error Err.ValidationError

/-- Modelled from the spec: decode an optional enum field of an update
payload; absent means leave the stored value untouched (spec section 4.3). -/
def decodeOptStatus (s : Option String) : Except Err (Option TaskStatus) :=
  match s with
  | none => Except.ok none
  | some str =>
      match TaskStatus.ofString str with
      | some v => Except.ok (some v)
      | none => Except.error Err.ValidationError

/-- Modelled from the spec: decode an optional priority field of an update
payload (spec section 4.3). -/
def decodeOptPriority (s : Option String) : Except Err (Option TaskPriority) :=
  match s with
  | none => Except.ok none
  | some str =>
      match TaskPriority.ofString str with
      | some v => Except.ok (some v)
      | none => Except.error Err.ValidationError

/-- Modelled from the spec: the single visibility predicate id = ? AND
owner_id = ? AND is_deleted = false that the services use for lookups
(spec section 9, ownership check collapsed into NotFound). -/
def visibleTo (owner tid : Int) (t : Task) : Bool :=
  decide (t.id = some tid) && decide (t.owner_id = owner) &&
    decide (t.is_deleted = some false)

/-- Modelled from the spec: the Record Store is a transactional store of
task rows, modelled as the list of rows it holds. -/
def Store := List Task

/-- Modelled from the spec: get_task(owner_id, task_id) of the Query
Service (spec section 4.2), absent from src/. A single lookup under the
collapsed visibility predicate; any miss is the one NotFound kind. -/
def get_task (store : List Task) (owner tid : Int) : Except Err Task :=
  match store.find? (visibleTo owner tid) with
  | some t => Except.ok t
  | none => Except.error Err.NotFound

/-- Modelled from the spec: SQLAlchemy flushing an UPDATE for a task row.
The updated_at column is declared with onupdate=func.now() (task.py line
76), so every persisted mutation stamps the row with the commit time. -/
def flushUpdate (t : Task) (now : Int) : Task :=
  { t with updated_at := some now }

/-- Modelled from the spec: apply the fields present in a partial update
payload, leaving absent fields untouched (spec section 4.3). -/
def applyPartial (t : Task) (ttl : Option String) (desc : Option String)
    (st : Option TaskStatus) (pr : Option TaskPriority)
    (due : Option Int) : Task :=
  { t with
    title := match ttl with | none => t.title | some s => s,
    description := match desc with | none => t.description | some d => some d,
    status := match st with | none => t.status | some s => some s,
    priority := match pr with | none => t.priority | some p => some p,
    due_date := match due with | none => t.due_date | some d => some d }

/-- Modelled from the spec: owner_id, id and created_at are immutable and
rejected when present in an update payload with a different value (spec
section 4.3). -/
def immutableViolated (t : Task) (p : Payload) : Bool :=
  (match p.owner_id with
    | none => false
    | some o => decide (o ≠ t.owner_id)) ||
  (match p.id with
    | none => false
    | some i => decide (t.id ≠ some i)) ||
  (match p.created_at with
    | none => false
    | some c => decide (t.created_at ≠ some c))

/-- Modelled from the spec: write one mutated row back to the store
(single-record transaction, spec section 4.3). -/
def replaceTask (store : List Task) (tid : Int) (t2 : Task) : List Task :=
  store.map (fun t => if t.id = some tid then t2 else t)

/-- Modelled from the spec: update_task(owner_id, task_id, partial_payload)
of the Command Service (spec section 4.3), absent from src/. Lookup under
the collapsed predicate, enum and immutable-field validation, partial
application, updated_at refreshed at flush. -/
def update_task (store : List Task) (owner tid : Int) (p : Payload)
    (now : Int) : Except Err (List Task × Task) :=
  match store.find? (visibleTo owner tid) with
  | none => Except.error Err.NotFound
  | some t =>
      match decodeOptStatus p.status with
      | Except.error e => Except.error e
      | Except.ok st =>
          match decodeOptPriority p.priority with
          | Except.error e => Except.error e
          | Except.ok pr =>
              if immutableViolated t p then Except.error Err.ValidationError
              else
                let t2 := flushUpdate
                  (applyPartial t p.title p.description st pr p.due_date) now
                Except.ok (replaceTask store tid t2, t2)

/-- Modelled from the spec: delete_task(owner_id, task_id) of the Command
Service (spec section 4.3), absent from src/. Lookup under the collapsed
predicate, then soft_delete() and persist. -/
def delete_task (store : List Task) (owner tid : Int) (now : Int) :
    Except Err (List Task) :=
  match store.find? (visibleTo owner tid) with
  | none => Except.error Err.NotFound
  | some t => Except.ok (replaceTask store tid (flushUpdate (t.soft_delete now) now))

/-- Modelled from the spec: create_task(owner_id, payload) of the Command
Service (spec section 4.3), absent from src/. Requires a non-empty title,
defaults status to PENDING and priority to MEDIUM when absent, rejects
unrecognized enum values with ValidationError, and sets owner_id,
created_at and updated_at; the new row is active (is_deleted false). -/
def create_task (owner : Int) (p : Payload) (now : Int) (newId : Int) :
    Except Err Task :=
  match p.title with
  | none => Except.error Err.ValidationError
  | some ttl =>
      if ttl = "" then Except.error Err.ValidationError
      else
        match decodeStatusField p.status with
        | Except.error e => Except.error e
        | Except.ok st =>
            match decodePriorityField p.priority with
            | Except.error e => Except.error e
            | Except.ok pr =>
                Except.ok
                  { id := some newId, title := ttl,
                    description := p.description, status := some st,
                    priority := some pr, due_date := p.due_date,
                    owner_id := owner, created_at := some now,
                    updated_at := some now, is_deleted := some false,
                    deleted_at := none }

/-- Modelled from the spec: the optional list filters, combined with
logical AND (spec section 4.2). -/
structure Filters where
  status : Option TaskStatus
  priority : Option TaskPriority
  due_before : Option Int
  due_after : Option Int
deriving DecidableEq, Repr

/-- Modelled from the spec: whether a task passes the optional filters. -/
def Filters.matches (f : Filters) (t : Task) : Bool :=
  (match f.status with
    | none => true
    | some s => decide (t.status = some s)) &&
  (match f.priority with
    | none => true
    | some p => decide (t.priority = some p)) &&
  (match f.due_before with
    | none => true
    | some b => match t.due_date with
      | some d => decide (d ≤ b)
      | none => false) &&
  (match f.due_after with
    | none => true
    | some a => match t.due_date with
      | some d => decide (a ≤ d)
      | none => false)

/-- Modelled from the spec: the page-size bound; the spec fixes only that
limit lies in [1, MAX_PAGE_SIZE], not the constant itself. -/
def MAX_PAGE_SIZE : Nat := 100

/-- Sort key for the default ordering (created_at descending); persisted
rows always carry a created_at. -/
def createdKey (t : Task) : Int :=
  Option.getD t.created_at 0

/-- Modelled from the spec: list_tasks(owner_id, filters, pagination) of
the Query Service (spec section 4.2), absent from src/. Fails
InvalidArgument when limit is out of range; otherwise returns the rows
matching owner AND is_deleted = false AND the filters, ordered by
created_at descending, paginated by offset/limit. -/
def list_tasks (store : List Task) (owner : Int) (f : Filters)
    (offset limit : Nat) : Except Err (List Task) :=
  if limit < 1 || MAX_PAGE_SIZE < limit then Except.error Err.InvalidArgument
  else
    Except.ok
      ((((store.filter (fun t =>
            decide (t.owner_id = owner) && decide (t.is_deleted = some false)
              && f.matches t)).insertionSort
          (fun a b => createdKey b ≤ createdKey a)).drop offset).take limit)

/-- One in-memory lifecycle operation on a task: the two model methods
from task.py, a persisted partial field update, and the INSERT that fires
the column defaults. -/
inductive TaskOp where
  | softDel (now : Int)
  | restore
  | updateFields (ttl : Option String) (desc : Option String)
      (st : Option TaskStatus) (pr : Option TaskPriority)
      (due : Option Int) (now : Int)
  | insert (now newId : Int)
deriving DecidableEq, Repr

/-- Apply one lifecycle operation. -/
def applyOp (t : Task) (op : TaskOp) : Task :=
  match op with
  | TaskOp.softDel now => t.soft_delete now
  | TaskOp.restore => t.restore
  | TaskOp.updateFields ttl desc st pr due now =>
      flushUpdate (applyPartial t ttl desc st pr due) now
  | TaskOp.insert now newId => t.insertDefaults now newId

/-- Apply a sequence of lifecycle operations, oldest first. -/
def applyOps (t : Task) (ops : List TaskOp) : Task :=
  ops.foldl applyOp t

/-- The soft-delete invariant of spec section 3: deleted_at is non-null
iff is_deleted is true. -/
def delInv (t : Task) : Prop :=
  t.deleted_at ≠ none ↔ t.is_deleted = some true

/-- Whether an operation is one of the two soft-delete lifecycle calls
(soft_delete or restore). -/
def isDelOp (op : TaskOp) : Bool :=
  match op with
  | TaskOp.softDel _ => true
  | TaskOp.restore => true
  | _ => false

/-- A concrete active task owned by user 1, used to instantiate the
universally quantified theorems below. -/
def demoTask : Task :=
  { id := some 1, title := "Test Task", description := none,
    status := some TaskStatus.pending, priority := some TaskPriority.medium,
    due_date := none, owner_id := 1, created_at := some 10,
    updated_at := none, is_deleted := some false, deleted_at := none }

/-- A one-row store holding demoTask. -/
def demoStore : List Task := [demoTask]

/-- A payload with every field absent. -/
def emptyPayload : Payload :=
  { title := none, description := none, status := none, priority := none,
    due_date := none, owner_id := none, id := none, created_at := none }

/-- The create scenario of spec section 8: title "Test Task", priority
"high", a future due date, status absent. -/
def demoPayload : Payload :=
  { title := some "Test Task", description := none, status := none,
    priority := some "high", due_date := some 7, owner_id := none,
    id := none, created_at := none }

/-- The task the create scenario is expected to produce. -/
def createdDemoTask : Task :=
  { id := some 1, title := "Test Task", description := none,
    status := some TaskStatus.pending, priority := some TaskPriority.high,
    due_date := some 7, owner_id := 1, created_at := some 0,
    updated_at := some 0, is_deleted := some false, deleted_at := none }

/-- A cancelled task with a past due date (due 5, clock at 10). -/
def cancelledTask : Task :=
  { id := some 2, title := "Cancelled Task", description := none,
    status := some TaskStatus.cancelled, priority := some TaskPriority.low,
    due_date := some 5, owner_id := 1, created_at := some 1,
    updated_at := none, is_deleted := some false, deleted_at := none }

/-- The empty filter set. -/
def noFilters : Filters :=
  { status := none, priority := none, due_before := none, due_after := none }

/-- Applying one lifecycle operation preserves the soft-delete invariant. -/
theorem delInv_applyOp (t : Task) (op : TaskOp) (h : delInv t) :
    delInv (applyOp t op) := by
  cases op with
  | softDel now => simp [applyOp, Task.soft_delete, delInv]
  | restore => simp [applyOp, Task.restore, delInv]
  | updateFields ttl desc st pr due now =>
      simpa [applyOp, flushUpdate, applyPartial, delInv] using h
  | insert now newId =>
      cases hb : t.is_deleted with
      | none =>
          have hdel : t.deleted_at = none := by
            by_contra hc
            have h2 := h.mp hc
            rw [hb] at h2
            exact Option.noConfusion h2
          simp [applyOp, Task.insertDefaults, delInv, hb, hdel]
      | some b => simpa [applyOp, Task.insertDefaults, delInv, hb] using h

/-- Applying any sequence of lifecycle operations preserves the
soft-delete invariant. -/
theorem delInv_applyOps (t : Task) (ops : List TaskOp) (h : delInv t) :
    delInv (applyOps t ops) := by
  induction ops generalizing t with
  | nil => exact h
  | cons op rest ih => exact ih (applyOp t op) (delInv_applyOp t op h)

/-- Claim C1: is_overdue is true iff due_date is set, status is not
COMPLETED, and due_date is strictly before the current time; it is false
when due_date is null, in the future, or status is COMPLETED, and a
CANCELLED task with a past due date is still reported overdue. -/
theorem is_overdue_iff (t : Task) (now : Int) :
    (t.is_overdue now = true ↔
      ∃ d, t.due_date = some d ∧ t.status ≠ some TaskStatus.completed ∧ d < now) ∧
    (t.status = some TaskStatus.cancelled →
      ∀ d, t.due_date = some d → d < now → t.is_overdue now = true) ∧
    (t.due_date = none → t.is_overdue now = false) ∧
    (t.status = some TaskStatus.completed → t.is_overdue now = false) ∧
    (∀ d, t.due_date = some d → now ≤ d → t.is_overdue now = false) := by
  have main : t.is_overdue now = true ↔
      ∃ d, t.due_date = some d ∧ t.status ≠ some TaskStatus.completed ∧ d < now := by
    cases hd : t.due_date with
    | none => simp [Task.is_overdue, hd]
    | some d =>
        by_cases hs : t.status = some TaskStatus.completed
        · simp [Task.is_overdue, hd, hs]
        · simp [Task.is_overdue, hd, hs]
  refine ⟨main, ?_, ?_, ?_, ?_⟩
  · intro hc d hd hlt
    refine main.mpr ⟨d, hd, ?_, hlt⟩
    rw [hc]
    intro h2
    exact TaskStatus.noConfusion (Option.some.inj h2)
  · intro hd
    simp [Task.is_overdue, hd]
  · intro hs
    cases hd : t.due_date with
    | none => simp [Task.is_overdue, hd]
    | some d => simp [Task.is_overdue, hd, hs]
  · intro d hd hle
    by_cases hs : t.status = some TaskStatus.completed
    · simp [Task.is_overdue, hd, hs]
    · simp [Task.is_overdue, hd, hs]
      omega

/-- Witness for claim C1: a CANCELLED task whose due date 5 lies before
the clock value 10 is reported overdue. -/
theorem is_overdue_iff_witness : cancelledTask.is_overdue 10 = true :=
  (is_overdue_iff cancelledTask 10).2.1 rfl 5 rfl (by decide)

/-- Claim C2: deleted_at is non-null iff is_deleted is true, before and
after any sequence of create, update, soft_delete and restore operations
applied to a freshly constructed task. -/
theorem deleted_at_nonnull_iff_is_deleted (title : String)
    (desc : Option String) (st : Option TaskStatus) (pr : Option TaskPriority)
    (due : Option Int) (owner : Int) (ops : List TaskOp) :
    delInv (applyOps (Task.construct title desc st pr due owner) ops) :=
  delInv_applyOps _ ops (by simp [delInv, Task.construct])

/-- Claim C5: soft_delete sets is_deleted to true and deleted_at to the
current time, and a second call on an already-deleted task merely
refreshes deleted_at (the result is exactly that of a single call at the
later time) and raises no error. -/
theorem soft_delete_sets_flag_and_idempotent (t : Task) (n1 n2 : Int) :
    (t.soft_delete n1).is_deleted = some true ∧
    (t.soft_delete n1).deleted_at = some n1 ∧
    (t.soft_delete n1).soft_delete n2 = t.soft_delete n2 :=
  ⟨rfl, rfl, rfl⟩

/-- Claim C6: any interleaving of soft_delete and restore calls whose last
call is restore leaves the task with is_deleted false and deleted_at null,
and restore is idempotent. -/
theorem restore_last_returns_active (t : Task) (init : List TaskOp)
    (h : ∀ op ∈ init, isDelOp op = true) :
    (applyOps t (init ++ [TaskOp.restore])).is_deleted = some false ∧
    (applyOps t (init ++ [TaskOp.restore])).deleted_at = none ∧
    t.restore.restore = t.restore := by
  have happ : applyOps t (init ++ [TaskOp.restore])
      = (applyOps t init).restore := by
    simp [applyOps, List.foldl_append, applyOp]
  rw [happ]
  exact ⟨rfl, rfl, rfl⟩

/-- Witness for claim C6: delete, restore, delete again, restore again
ends with the demo task active and its deleted_at cleared. -/
theorem restore_last_returns_active_witness :
    (applyOps demoTask ([TaskOp.softDel 5, TaskOp.restore, TaskOp.softDel 7]
      ++ [TaskOp.restore])).is_deleted = some false ∧
    (applyOps demoTask ([TaskOp.softDel 5, TaskOp.restore, TaskOp.softDel 7]
      ++ [TaskOp.restore])).deleted_at = none ∧
    demoTask.restore.restore = demoTask.restore :=
  restore_last_returns_active demoTask
    [TaskOp.softDel 5, TaskOp.restore, TaskOp.softDel 7] (by decide)

/-- A lookup under the collapsed visibility predicate misses exactly when
no task in the store is visible to the caller. -/
theorem find_vis_none_iff (store : List Task) (owner tid : Int) :
    store.find? (visibleTo owner tid) = none ↔
      ∀ t ∈ store, visibleTo owner tid t = false := by
  rw [List.find?_eq_none]
  constructor
  · intro h t ht
    simpa using h t ht
  · intro h t ht
    simp [h t ht]

/-- An update-payload status field decodes to an error only of the
ValidationError kind. -/
theorem decodeOptStatus_error (s : Option String) (e : Err)
    (h : decodeOptStatus s = Except.error e) : e = Err.ValidationError := by
  cases s with
  | none => exact absurd h (by simp [decodeOptStatus])
  | some str =>
      have hd : decodeOptStatus (some str) =
          (match TaskStatus.ofString str with
            | some v => Except.ok (some v)
            | none => Except.error Err.ValidationError) := rfl
      rw [hd] at h
      rcases h2 : TaskStatus.ofString str with _ | v <;> rw [h2] at h
      · exact (Except.error.inj h).symm
      · exact absurd h (by simp)

/-- An update-payload priority field decodes to an error only of the
ValidationError kind. -/
theorem decodeOptPriority_error (s : Option String) (e : Err)
    (h : decodeOptPriority s = Except.error e) : e = Err.ValidationError := by
  cases s with
  | none => exact absurd h (by simp [decodeOptPriority])
  | some str =>
      have hd : decodeOptPriority (some str) =
          (match TaskPriority.ofString str with
            | some v => Except.ok (some v)
            | none => Except.error Err.ValidationError) := rfl
      rw [hd] at h
      rcases h2 : TaskPriority.ofString str with _ | v <;> rw [h2] at h
      · exact (Except.error.inj h).symm
      · exact absurd h (by simp)

/-- A create-payload status field decodes to an error only of the
ValidationError kind. -/
theorem decodeStatusField_error (s : Option String) (e : Err)
    (h : decodeStatusField s = Except.error e) : e = Err.ValidationError := by
  cases s with
  | none => exact absurd h (by simp [decodeStatusField])
  | some str =>
      have hd : decodeStatusField (some str) =
          (match TaskStatus.ofString str with
            | some v => Except.ok v
            | none => Except.error Err.ValidationError) := rfl
      rw [hd] at h
      rcases h2 : TaskStatus.ofString str with _ | v <;> rw [h2] at h
      · exact (Except.error.inj h).symm
      · exact absurd h (by simp)

/-- Once the lookup finds a visible task, update_task never reports
NotFound: the only later failure kind is ValidationError. -/
theorem update_some_not_notfound (store : List Task) (owner tid : Int)
    (p : Payload) (now : Int) (t : Task)
    (hf : store.find? (visibleTo owner tid) = some t) :
    update_task store owner tid p now ≠ Except.error Err.NotFound := by
  unfold update_task
  rw [hf]
  rcases hs : decodeOptStatus p.status with e | st
  · have he := decodeOptStatus_error p.status e hs
    subst he
    simp
  · rcases hp : decodeOptPriority p.priority with e | pr
    · have he := decodeOptPriority_error p.priority e hp
      subst he
      simp
    · by_cases hi : immutableViolated t p
      · simp [hi]
      · simp [hi]

/-- Claim C3: get_task, update_task and delete_task fail with the single
error kind NotFound exactly when no stored task passes the collapsed
visibility predicate, whose failure is precisely one of the three causes:
no task with that id, a different owner, or a soft-deleted task; the three
causes are indistinguishable because all collapse into the one kind. -/
theorem notfound_collapses_three_causes (store : List Task) (owner tid : Int)
    (p : Payload) (now : Int) :
    (∀ t, visibleTo owner tid t = false ↔
      (¬ t.id = some tid ∨ ¬ t.owner_id = owner ∨
        ¬ t.is_deleted = some false)) ∧
    (get_task store owner tid = Except.error Err.NotFound ↔
      ∀ t ∈ store, visibleTo owner tid t = false) ∧
    (update_task store owner tid p now = Except.error Err.NotFound ↔
      ∀ t ∈ store, visibleTo owner tid t = false) ∧
    (delete_task store owner tid now = Except.error Err.NotFound ↔
      ∀ t ∈ store, visibleTo owner tid t = false) ∧
    (∀ e, get_task store owner tid = Except.error e → e = Err.NotFound) := by
  refine ⟨?_, ?_, ?_, ?_, ?_⟩
  · intro t
    rw [← Bool.not_eq_true]
    simp only [visibleTo, Bool.and_eq_true, decide_eq_true_eq]
    tauto
  · rw [← find_vis_none_iff]
    unfold get_task
    rcases hf : store.find? (visibleTo owner tid) with _ | t
    · simp
    · simp
  · constructor
    · intro hu
      rw [← find_vis_none_iff]
      by_contra hc
      rcases Option.ne_none_iff_exists'.mp hc with ⟨t, hf⟩
      exact update_some_not_notfound store owner tid p now t hf hu
    · intro hall
      have hf := (find_vis_none_iff store owner tid).mpr hall
      unfold update_task
      simp [hf]
  · rw [← find_vis_none_iff]
    unfold delete_task
    rcases hf : store.find? (visibleTo owner tid) with _ | t
    · simp
    · simp
  · intro e he
    unfold get_task at he
    rcases hf : store.find? (visibleTo owner tid) with _ | t <;> rw [hf] at he
    · exact (Except.error.inj he).symm
    · exact absurd he (by simp)

/-- Witness for claim C3: asking for task 1 as owner 2, while the store's
task 1 belongs to owner 1, yields NotFound. -/
theorem notfound_collapses_witness :
    get_task demoStore 2 1 = Except.error Err.NotFound :=
  (notfound_collapses_three_causes demoStore 2 1 emptyPayload 0).2.1.mpr
    (by decide)

/-- Claim C4: every task returned by list_tasks has the requested owner
and is not soft-deleted; no foreign-owned or soft-deleted task appears. -/
theorem list_tasks_owner_scoped_not_deleted (store : List Task) (owner : Int)
    (f : Filters) (offset limit : Nat) (l : List Task)
    (h : list_tasks store owner f offset limit = Except.ok l) :
    ∀ t ∈ l, t.owner_id = owner ∧ t.is_deleted = some false := by
  intro t ht
  unfold list_tasks at h
  split at h
  · exact absurd h (by simp)
  · have hl2 := Except.ok.inj h
    subst hl2
    have h1 := List.mem_of_mem_take ht
    have h2 := List.mem_of_mem_drop h1
    have h3 := (List.perm_insertionSort
      (fun a b => createdKey b ≤ createdKey a) _).mem_iff.mp h2
    have h4 := List.of_mem_filter h3
    simp only [Bool.and_eq_true, decide_eq_true_eq] at h4
    exact ⟨h4.1.1, h4.1.2⟩

/-- Witness for claim C4: listing owner 1 with no filters over the demo
store returns the demo task, which is owned by 1 and not deleted. -/
theorem list_tasks_owner_scoped_witness :
    demoTask.owner_id = 1 ∧ demoTask.is_deleted = some false :=
  list_tasks_owner_scoped_not_deleted demoStore 1 noFilters 0 10 [demoTask]
    (by rfl) demoTask (List.mem_singleton.mpr rfl)

/-- Unfolding create_task when the payload carries no title. -/
theorem create_task_title_none (owner : Int) (p : Payload) (now newId : Int)
    (h : p.title = none) :
    create_task owner p now newId = Except.error Err.ValidationError := by
  unfold create_task
  rw [h]

/-- Unfolding create_task when the payload carries a title. -/
theorem create_task_title_some (owner : Int) (p : Payload) (now newId : Int)
    (ttl : String) (h : p.title = some ttl) :
    create_task owner p now newId =
      (if ttl = "" then Except.error Err.ValidationError
        else
          match decodeStatusField p.status with
          | Except.error e => Except.error e
          | Except.ok st =>
              match decodePriorityField p.priority with
              | Except.error e => Except.error e
              | Except.ok pr =>
                  Except.ok
                    { id := some newId, title := ttl,
                      description := p.description, status := some st,
                      priority := some pr, due_date := p.due_date,
                      owner_id := owner, created_at := some now,
                      updated_at := some now, is_deleted := some false,
                      deleted_at := none }) := by
  unfold create_task
  rw [h]

/-- Unfolding update_task when the lookup finds a visible task. -/
theorem update_task_found (store : List Task) (owner tid : Int) (p : Payload)
    (now : Int) (t : Task)
    (hf : store.find? (visibleTo owner tid) = some t) :
    update_task store owner tid p now =
      (match decodeOptStatus p.status with
        | Except.error e => Except.error e
        | Except.ok st =>
            match decodeOptPriority p.priority with
            | Except.error e => Except.error e
            | Except.ok pr =>
                if immutableViolated t p then Except.error Err.ValidationError
                else
                  Except.ok (replaceTask store tid
                    (flushUpdate (applyPartial t p.title p.description st pr
                      p.due_date) now),
                    flushUpdate (applyPartial t p.title p.description st pr
                      p.due_date) now)) := by
  unfold update_task
  rw [hf]

/-- Claim C7: create_task fails with ValidationError when title is absent
or empty and when status or priority carries an unrecognized value;
otherwise it succeeds, and the resulting task defaults status to PENDING
and priority to MEDIUM when those fields are absent, with is_deleted
false. -/
theorem create_task_validates_and_defaults (owner : Int) (p : Payload)
    (now newId : Int) :
    (p.title = none →
      create_task owner p now newId = Except.error Err.ValidationError) ∧
    (p.title = some "" →
      create_task owner p now newId = Except.error Err.ValidationError) ∧
    (∀ s, p.status = some s → TaskStatus.ofString s = none →
      create_task owner p now newId = Except.error Err.ValidationError) ∧
    (∀ s, p.priority = some s → TaskPriority.ofString s = none →
      create_task owner p now newId = Except.error Err.ValidationError) ∧
    (∀ ttl st pr, p.title = some ttl → ttl ≠ "" →
      decodeStatusField p.status = Except.ok st →
      decodePriorityField p.priority = Except.ok pr →
      create_task owner p now newId = Except.ok
        { id := some newId, title := ttl, description := p.description,
          status := some st, priority := some pr, due_date := p.due_date,
          owner_id := owner, created_at := some now, updated_at := some now,
          is_deleted := some false, deleted_at := none }) ∧
    (∀ t, create_task owner p now newId = Except.ok t →
      (p.status = none → t.status = some TaskStatus.pending) ∧
      (p.priority = none → t.priority = some TaskPriority.medium) ∧
      t.is_deleted = some false ∧ t.owner_id = owner) := by
  refine ⟨?_, ?_, ?_, ?_, ?_, ?_⟩
  · intro h
    exact create_task_title_none owner p now newId h
  · intro h
    rw [create_task_title_some owner p now newId "" h]
    simp
  · intro s hs hnone
    rcases hp : p.title with _ | ttl
    · exact create_task_title_none owner p now newId hp
    · rw [create_task_title_some owner p now newId ttl hp]
      by_cases he : ttl = ""
      · simp [he]
      · rw [if_neg he]
        simp [decodeStatusField, hs, hnone]
  · intro s hs hnone
    rcases hp : p.title with _ | ttl
    · exact create_task_title_none owner p now newId hp
    · rw [create_task_title_some owner p now newId ttl hp]
      by_cases he : ttl = ""
      · simp [he]
      · rw [if_neg he]
        rcases hst : decodeStatusField p.status with e | st
        · have he2 := decodeStatusField_error p.status e hst
          subst he2
          simp
        · simp [decodePriorityField, hs, hnone]
  · intro ttl st pr h1 h2 h3 h4
    rw [create_task_title_some owner p now newId ttl h1, if_neg h2, h3, h4]
  · intro t hok
    rcases hp : p.title with _ | ttl
    · rw [create_task_title_none owner p now newId hp] at hok
      exact absurd hok (by simp)
    · rw [create_task_title_some owner p now newId ttl hp] at hok
      by_cases he : ttl = ""
      · rw [if_pos he] at hok
        exact absurd hok (by simp)
      · rw [if_neg he] at hok
        rcases hst : decodeStatusField p.status with e | st <;> rw [hst] at hok
        · exact absurd hok (by simp)
        · rcases hpr : decodePriorityField p.priority with e | pr <;>
            rw [hpr] at hok
          · exact absurd hok (by simp)
          · have ht := Except.ok.inj hok
            subst ht
            refine ⟨?_, ?_, rfl, rfl⟩
            · intro h0
              rw [h0] at hst
              simp [decodeStatusField] at hst
              subst hst
              rfl
            · intro h0
              rw [h0] at hpr
              simp [decodePriorityField] at hpr
              subst hpr
              rfl

/-- Witness for claim C7: the section 8 scenario, title "Test Task" and
priority "high" with status absent, creates a PENDING, non-deleted task. -/
theorem create_task_validates_witness :
    createdDemoTask.status = some TaskStatus.pending ∧
    createdDemoTask.is_deleted = some false := by
  have h := (create_task_validates_and_defaults 1 demoPayload 0 1).2.2.2.2.2
    createdDemoTask (by rfl)
  exact ⟨h.1 rfl, h.2.2.1⟩

/-- Claim C8: every persisted mutation refreshes updated_at to the time of
that mutation: a successful update_task stamps the updated row, and the
flush of a soft delete or a restore stamps the row through the onupdate
hook; a successful delete_task leaves only untouched rows or rows stamped
with the deletion time. -/
theorem updated_at_refreshed_on_mutation (store : List Task)
    (owner tid : Int) (p : Payload) (now : Int) (t : Task) :
    (∀ store2 t2, update_task store owner tid p now = Except.ok (store2, t2) →
      t2.updated_at = some now) ∧
    (flushUpdate (t.soft_delete now) now).updated_at = some now ∧
    (flushUpdate t.restore now).updated_at = some now ∧
    (∀ store2, delete_task store owner tid now = Except.ok store2 →
      ∀ u ∈ store2, u ∈ store ∨ u.updated_at = some now) := by
  refine ⟨?_, rfl, rfl, ?_⟩
  · intro store2 t2 h
    rcases hf : store.find? (visibleTo owner tid) with _ | t0
    · unfold update_task at h
      rw [hf] at h
      exact absurd h (by simp)
    · rw [update_task_found store owner tid p now t0 hf] at h
      rcases hs : decodeOptStatus p.status with e | st <;> rw [hs] at h
      · exact absurd h (by simp)
      · rcases hp2 : decodeOptPriority p.priority with e | pr <;> rw [hp2] at h
        · exact absurd h (by simp)
        · by_cases hi : immutableViolated t0 p
          · simp [hi] at h
          · simp [hi] at h
            obtain ⟨h1, h2⟩ := h
            subst h2
            rfl
  · intro store2 h u hu
    unfold delete_task at h
    rcases hf : store.find? (visibleTo owner tid) with _ | t0 <;> rw [hf] at h
    · exact absurd h (by simp)
    · have h2 := Except.ok.inj h
      rw [← h2] at hu
      unfold replaceTask at hu
      rcases List.mem_map.mp hu with ⟨a, ha, hau⟩
      by_cases hc : a.id = some tid
      · rw [if_pos hc] at hau
        right
        rw [← hau]
        rfl
      · rw [if_neg hc] at hau
        left
        rw [← hau]
        exact ha

/-- Witness for claim C8: updating the demo task with an empty payload at
time 99 stamps updated_at with 99. -/
theorem updated_at_refreshed_witness :
    ({ demoTask with updated_at := some 99 } : Task).updated_at = some 99 :=
  (updated_at_refreshed_on_mutation demoStore 1 1 emptyPayload 99
      demoTask).1
    [{ demoTask with updated_at := some 99 }]
    { demoTask with updated_at := some 99 } (by rfl)

/-- Claim C9: soft_delete and restore modify only is_deleted and
deleted_at; every other field is left unchanged by both operations. -/
theorem soft_delete_restore_frame (t : Task) (now : Int) :
    (t.soft_delete now).id = t.id ∧ (t.soft_delete now).title = t.title ∧
    (t.soft_delete now).description = t.description ∧
    (t.soft_delete now).status = t.status ∧
    (t.soft_delete now).priority = t.priority ∧
    (t.soft_delete now).due_date = t.due_date ∧
    (t.soft_delete now).owner_id = t.owner_id ∧
    (t.soft_delete now).created_at = t.created_at ∧
    (t.soft_delete now).updated_at = t.updated_at ∧
    t.restore.id = t.id ∧ t.restore.title = t.title ∧
    t.restore.description = t.description ∧ t.restore.status = t.status ∧
    t.restore.priority = t.priority ∧ t.restore.due_date = t.due_date ∧
    t.restore.owner_id = t.owner_id ∧ t.restore.created_at = t.created_at ∧
    t.restore.updated_at = t.updated_at :=
  ⟨rfl, rfl, rfl, rfl, rfl, rfl, rfl, rfl, rfl, rfl, rfl, rfl, rfl, rfl,
    rfl, rfl, rfl, rfl⟩

/-- Claim C10: a Task constructed directly in memory without status,
priority or is_deleted has those attributes unset (none), and the column
defaults PENDING, MEDIUM and false are applied only at INSERT. -/
theorem construct_leaves_defaults_unset (title : String)
    (desc : Option String) (due : Option Int) (owner now newId : Int) :
    (Task.construct title desc none none due owner).status = none ∧
    (Task.construct title desc none none due owner).priority = none ∧
    (Task.construct title desc none none due owner).is_deleted = none ∧
    ((Task.construct title desc none none due owner).insertDefaults now
      newId).status = some TaskStatus.pending ∧
    ((Task.construct title desc none none due owner).insertDefaults now
      newId).priority = some TaskPriority.medium ∧
    ((Task.construct title desc none none due owner).insertDefaults now
      newId).is_deleted = some false :=
  ⟨rfl, rfl, rfl, rfl, rfl, rfl⟩

end TaskFlow
